import Mathlib

/-!
Verification of the creamSocket-client WebSocket protocol engine.

This file is a shallow embedding, in Lean 4, of the protocol logic of the
repository `eliassn/creamSocket-client`:

* the WebSocket frame codec (`_encodeFrame` / `_decodeFrame` of
  `src/CreamSocketClient.js`),
* the inbound-data dispatch (`_handleData`),
* the handshake validation (`_isHandshakeResponse`, `_parseHeaders`,
  `_completeHandshake`, `_generateAcceptValue`),
* the heartbeat / disconnect state handling (`disconnect`, `_sendCloseFrame`,
  `startHeartbeat`, `stopHeartbeat`),
* the application-payload parser (`CreamSocketParser.encode` /
  `CreamSocketParser.decode` / `handleNotification`, the buffered variant
  whose source text is embedded in the repository README).

Buffers are modelled as `List Nat` (each element one byte).  JavaScript
numeric operators are modelled with their ECMAScript semantics where it
matters: `>>` converts its left operand to 32 bits and takes the shift count
modulo 32, and `Buffer.from(array)` truncates every element to a byte
(`% 256`).  External library primitives used by the source (Node's SHA-1,
base64, UTF-8 conversions and `JSON.parse`) are embedded by their documented
standard semantics.
-/

/-! ## Byte-buffer primitives (Node `Buffer` reads) -/
/-- `buffer.readUInt16BE(off)`: big-endian 16-bit read. -/
def readUInt16BE (buffer : List Nat) (off : Nat) : Nat :=
  buffer.getD off 0 * 256 + buffer.getD (off + 1) 0

/-- `Number(buffer.readBigUInt64BE(off))`: big-endian 64-bit read. -/
def readBigUInt64BE (buffer : List Nat) (off : Nat) : Nat :=
  (List.range 8).foldl (fun acc j => acc * 256 + buffer.getD (off + j) 0) 0

/-! ## Frame codec (`_encodeFrame`, lines 237-263 of `CreamSocketClient.js`) -/
/-- `_encodeFrame(message, opcode)`.  The payload is already a byte list
(`Buffer.from(message)`).  First byte `0x80 | opcode`, then the three-tier
length field, then the payload.  Each header element passes through
`Buffer.from(frame)`, i.e. is truncated to a byte.  In the 64-bit branch the
source computes `(payloadLength >> (i * 8)) & 0xff` for `i = 7 .. 0`; the
ECMAScript `>>` operator reduces the left operand to 32 bits and the shift
count modulo 32, which this definition reproduces. -/
def encodeFrame (message : List Nat) (opcode : Nat) : List Nat :=
  let payload := message
  let payloadLength := payload.length
  let header : List Nat :=
    if payloadLength < 126 then
      [(0x80 ||| opcode) % 256, payloadLength % 256]
    else if payloadLength < 65536 then
      [(0x80 ||| opcode) % 256, 126 % 256,
        ((payloadLength >>> 8) &&& 0xff) % 256, (payloadLength &&& 0xff) % 256]
    else
      ((0x80 ||| opcode) % 256) :: 127 % 256 ::
        (List.range 8).map
          (fun j => (((payloadLength % 4294967296) >>> (((7 - j) * 8) % 32)) &&& 0xff) % 256)
  header ++ payload

/-! ## Frame decoding (`_decodeFrame`, lines 270-332) -/
/-- The structured result of `_decodeFrame` before the final
`decodedPayload.toString()` conversion: fin bit, opcode, and payload bytes. -/
structure RawFrame where
  fin : Nat
  opcode : Nat
  payload : List Nat
deriving DecidableEq, Repr

/-- The unmasking loop of `_decodeFrame` (lines 321-324):
`decodedPayload[i] = payload[i] ^ maskingKey[i % 4]`. -/
def unmaskBytes (payload maskingKey : List Nat) : List Nat :=
  (List.range payload.length).map
    (fun i => payload.getD i 0 ^^^ maskingKey.getD (i % 4) 0)

/-- Tail of `_decodeFrame` from the payload-length check (line 312): fails if
the buffer does not hold the whole payload, otherwise slices the payload and
unmasks it when a masking key was read. -/
def decodePayloadPart (buffer : List Nat) (fin opcode payloadLength off : Nat)
    (maskingKey : Option (List Nat)) : Option RawFrame :=
  if buffer.length < off + payloadLength then none
  else
    let payload := (buffer.drop off).take payloadLength
    let decodedPayload :=
      match maskingKey with
      | some key => unmaskBytes payload key
      | none => payload
    some ⟨fin, opcode, decodedPayload⟩

/-- Middle of `_decodeFrame` from the mask check (lines 302-310): when the
masked bit is set, requires and slices a 4-byte masking key. -/
def decodeMaskPart (buffer : List Nat) (fin opcode masked payloadLength off : Nat) :
    Option RawFrame :=
  if masked ≠ 0 then
    if buffer.length < off + 4 then none
    else
      let maskingKey := (buffer.drop off).take 4
      decodePayloadPart buffer fin opcode payloadLength (off + 4) (some maskingKey)
  else decodePayloadPart buffer fin opcode payloadLength off none

/-- `_decodeFrame(buffer)` up to the extraction of the payload bytes
(lines 270-325): header fields, the three-tier length field, the masking key
and the payload slice.  Returns `none` exactly where the source returns
`null` ("Incomplete ..." paths). -/
def decodeFrameBytes (buffer : List Nat) : Option RawFrame :=
  if buffer.length < 2 then none
  else
    let firstByte := buffer.getD 0 0
    let secondByte := buffer.getD 1 0
    let fin := (firstByte &&& 0x80) >>> 7
    let opcode := firstByte &&& 0x0f
    let masked := (secondByte &&& 0x80) >>> 7
    let payloadLength := secondByte &&& 0x7f
    if payloadLength = 126 then
      if buffer.length < 4 then none
      else decodeMaskPart buffer fin opcode masked (readUInt16BE buffer 2) 4
    else if payloadLength = 127 then
      if buffer.length < 10 then none
      else decodeMaskPart buffer fin opcode masked (readBigUInt64BE buffer 2) 10
    else decodeMaskPart buffer fin opcode masked payloadLength 2

/-! ## Lossy UTF-8 decoding (Node `buffer.toString()`) -/
/-- Decodes a byte list as UTF-8 text, replacing invalid sequences with
U+FFFD, as Node's `buffer.toString()` does.  The first argument is fuel
(one unit per consumed lead byte; `bytes.length` suffices). -/
def utf8DecodeLoop : Nat → List Nat → List Char
  | 0, _ => []
  | _, [] => []
  | fuel + 1, b :: rest =>
    if b < 0x80 then
      Char.ofNat b :: utf8DecodeLoop fuel rest
    else if 0xC2 ≤ b ∧ b < 0xE0 then
      match rest with
      | b1 :: rest1 =>
        if 0x80 ≤ b1 ∧ b1 < 0xC0 then
          Char.ofNat ((b - 0xC0) * 64 + (b1 - 0x80)) :: utf8DecodeLoop fuel rest1
        else
          Char.ofNat 0xFFFD :: utf8DecodeLoop fuel rest
      | [] => [Char.ofNat 0xFFFD]
    else if 0xE0 ≤ b ∧ b < 0xF0 then
      match rest with
      | b1 :: b2 :: rest2 =>
        if (0x80 ≤ b1 ∧ b1 < 0xC0) ∧ (0x80 ≤ b2 ∧ b2 < 0xC0) then
          let cp := (b - 0xE0) * 4096 + (b1 - 0x80) * 64 + (b2 - 0x80)
          if 0x800 ≤ cp ∧ ¬(0xD800 ≤ cp ∧ cp ≤ 0xDFFF) then
            Char.ofNat cp :: utf8DecodeLoop fuel rest2
          else
            Char.ofNat 0xFFFD :: utf8DecodeLoop fuel rest2
        else
          Char.ofNat 0xFFFD :: utf8DecodeLoop fuel rest
      | _ => [Char.ofNat 0xFFFD]
    else if 0xF0 ≤ b ∧ b < 0xF5 then
      match rest with
      | b1 :: b2 :: b3 :: rest3 =>
        if (0x80 ≤ b1 ∧ b1 < 0xC0) ∧ (0x80 ≤ b2 ∧ b2 < 0xC0) ∧ (0x80 ≤ b3 ∧ b3 < 0xC0) then
          let cp := (b - 0xF0) * 262144 + (b1 - 0x80) * 4096 + (b2 - 0x80) * 64 + (b3 - 0x80)
          if 0x10000 ≤ cp ∧ cp ≤ 0x10FFFF then
            Char.ofNat cp :: utf8DecodeLoop fuel rest3
          else
            Char.ofNat 0xFFFD :: utf8DecodeLoop fuel rest3
        else
          Char.ofNat 0xFFFD :: utf8DecodeLoop fuel rest
      | _ => [Char.ofNat 0xFFFD]
    else
      Char.ofNat 0xFFFD :: utf8DecodeLoop fuel rest

/-- `decodedPayload.toString()`: lossy UTF-8 decoding of a byte list. -/
def bufToString (bytes : List Nat) : String :=
  String.mk (utf8DecodeLoop bytes.length bytes)

/-- The object returned by `_decodeFrame` (lines 327-331): fin, opcode, and
the payload converted to a string. -/
structure Frame where
  fin : Nat
  opcode : Nat
  payload : String
deriving DecidableEq, Repr

/-- `_decodeFrame(buffer)`: the byte-level decode followed by the
`decodedPayload.toString()` conversion of the returned object. -/
def decodeFrame (buffer : List Nat) : Option Frame :=
  (decodeFrameBytes buffer).map (fun r => ⟨r.fin, r.opcode, bufToString r.payload⟩)

/-! ## Inbound dispatch (`_handleData`, lines 137-171, connected state) -/
/-- Events observable from `_handleData` once the connection is open: emitted
`message` / `notification` events, the `disconnect()` call for a Close frame,
the auto-pong reply, and the unhandled-opcode diagnostic. -/
inductive WireEv where
  | message (payload : String)
  | notification (payload : String)
  | disconnectRequested
  | pongSent (payload : String)
  | unhandled (opcode : Nat)
deriving DecidableEq, Repr

/-- `_handleData(data)` in the connected state: decodes the chunk that was
just received (no reassembly buffer exists in the source) and dispatches on
the opcode.  A `null` decode result returns with no effect, dropping the
chunk's bytes. -/
def handleDataEvents (data : List Nat) : List WireEv :=
  match decodeFrame data with
  | none => []
  | some frame =>
    if frame.opcode = 0x1 then [WireEv.message frame.payload]
    else if frame.opcode = 0x2 then [WireEv.notification frame.payload]
    else if frame.opcode = 0x8 then [WireEv.disconnectRequested]
    else if frame.opcode = 0x9 then [WireEv.pongSent frame.payload]
    else if frame.opcode = 0xA then []
    else [WireEv.unhandled frame.opcode]

/-- Delivery of a sequence of transport chunks: the socket `data` handler
runs once per chunk, so the observable events are the concatenation of the
per-chunk events. -/
def processChunks (chunks : List (List Nat)) : List WireEv :=
  (chunks.map handleDataEvents).flatten

/-! ## The encoder the specification describes (for comparison) -/
/-- Modelled from the spec: `encode` emits `[0x80|opcode]`, then a length
field that for payloads of 65536 bytes or more is the marker 127 followed by
the *exact 64-bit big-endian* payload length, then the raw payload. -/
def specEncodeFrame (payload : List Nat) (opcode : Nat) : List Nat :=
  let n := payload.length
  let header : List Nat :=
    if n < 126 then [0x80 ||| opcode, n]
    else if n < 65536 then [0x80 ||| opcode, 126, n >>> 8 % 256, n % 256]
    else (0x80 ||| opcode) :: 127 :: (List.range 8).map (fun j => n >>> ((7 - j) * 8) % 256)
  header ++ payload

/-! ## UTF-8 encoding of strings (`Buffer.from(string)` / hash input) -/
/-- UTF-8 encoding of a single character. -/
def utf8EncodeChar (c : Char) : List Nat :=
  let n := c.toNat
  if n < 0x80 then [n]
  else if n < 0x800 then [0xC0 ||| (n >>> 6), 0x80 ||| (n &&& 63)]
  else if n < 0x10000 then
    [0xE0 ||| (n >>> 12), 0x80 ||| ((n >>> 6) &&& 63), 0x80 ||| (n &&& 63)]
  else
    [0xF0 ||| (n >>> 18), 0x80 ||| ((n >>> 12) &&& 63),
      0x80 ||| ((n >>> 6) &&& 63), 0x80 ||| (n &&& 63)]

/-- UTF-8 encoding of a string as a byte list. -/
def strBytes (s : String) : List Nat :=
  (s.data.map utf8EncodeChar).flatten

/-! ## SHA-1 (Node `crypto.createHash('sha1')`) -/
/-- 32-bit left rotation. -/
def rotl32 (n x : Nat) : Nat :=
  ((x <<< n) ||| (x >>> (32 - n))) % 4294967296

/-- Big-endian byte expansion of a 64-bit value. -/
def be64 (n : Nat) : List Nat :=
  (List.range 8).map (fun j => n >>> ((7 - j) * 8) % 256)

/-- Big-endian byte expansion of a 32-bit value. -/
def be32 (n : Nat) : List Nat :=
  [n >>> 24 % 256, n >>> 16 % 256, n >>> 8 % 256, n % 256]

/-- SHA-1 message padding: a 0x80 byte, zeros, then the bit length as a
64-bit big-endian value, to a multiple of 64 bytes. -/
def sha1Pad (msg : List Nat) : List Nat :=
  let zeros := (64 - (msg.length + 9) % 64) % 64
  msg ++ [0x80] ++ List.replicate zeros 0 ++ be64 (msg.length * 8)

/-- Groups a byte list into big-endian 32-bit words. -/
def bytesToWords : List Nat → List Nat
  | a :: b :: c :: d :: rest => (((a * 256 + b) * 256 + c) * 256 + d) :: bytesToWords rest
  | _ => []

/-- Expands the 16 words of a block to the 80 words of the SHA-1 message
schedule. -/
def sha1Schedule (ws : List Nat) : List Nat :=
  (List.range 64).foldl
    (fun w _ =>
      w ++ [rotl32 1 (w.getD (w.length - 3) 0 ^^^ w.getD (w.length - 8) 0 ^^^
        w.getD (w.length - 14) 0 ^^^ w.getD (w.length - 16) 0)])
    ws

/-- The SHA-1 round function. -/
def sha1F (t b c d : Nat) : Nat :=
  if t < 20 then (b &&& c) ||| ((b ^^^ 0xFFFFFFFF) &&& d)
  else if t < 40 then b ^^^ c ^^^ d
  else if t < 60 then (b &&& c) ||| (b &&& d) ||| (c &&& d)
  else b ^^^ c ^^^ d

/-- The SHA-1 round constants. -/
def sha1K (t : Nat) : Nat :=
  if t < 20 then 0x5A827999
  else if t < 40 then 0x6ED9EBA1
  else if t < 60 then 0x8F1BBCDC
  else 0xCA62C1D6

/-- Processes one 64-byte block into the running hash state. -/
def sha1Block (h : Nat × Nat × Nat × Nat × Nat) (block : List Nat) :
    Nat × Nat × Nat × Nat × Nat :=
  let w := sha1Schedule (bytesToWords block)
  let s :=
    (List.range 80).foldl
      (fun (st : Nat × Nat × Nat × Nat × Nat) t =>
        let (a, b, c, d, e) := st
        let temp := (rotl32 5 a + sha1F t b c d + e + sha1K t + w.getD t 0) % 4294967296
        (temp, a, rotl32 30 b, c, d))
      h
  (((h.1 + s.1) % 4294967296, (h.2.1 + s.2.1) % 4294967296,
    (h.2.2.1 + s.2.2.1) % 4294967296, (h.2.2.2.1 + s.2.2.2.1) % 4294967296,
    (h.2.2.2.2 + s.2.2.2.2) % 4294967296))

/-- Splits a byte list into 64-byte chunks (fuel-based recursion; one unit
of fuel per chunk, `l.length` suffices). -/
def chunks64Go : Nat → List Nat → List (List Nat)
  | 0, _ => []
  | _, [] => []
  | fuel + 1, x :: rest => ((x :: rest).take 64) :: chunks64Go fuel ((x :: rest).drop 64)

/-- Splits a byte list into 64-byte chunks. -/
def chunks64 (l : List Nat) : List (List Nat) :=
  chunks64Go l.length l

/-- SHA-1 of a byte list, as 20 digest bytes. -/
def sha1 (msg : List Nat) : List Nat :=
  let hs :=
    (chunks64 (sha1Pad msg)).foldl sha1Block
      (0x67452301, 0xEFCDAB89, 0x98BADCFE, 0x10325476, 0xC3D2E1F0)
  be32 hs.1 ++ be32 hs.2.1 ++ be32 hs.2.2.1 ++ be32 hs.2.2.2.1 ++ be32 hs.2.2.2.2

/-! ## Base64 (Node `.digest('base64')`) -/
/-- The base64 alphabet. -/
def base64Alphabet : List Char :=
  "ABCDEFGHIJKLMNOPQRSTUVWXYZabcdefghijklmnopqrstuvwxyz0123456789+/".data

/-- One base64 alphabet character. -/
def base64Char (i : Nat) : Char :=
  base64Alphabet.getD i 'A'

/-- Base64 encoding of a byte list, three bytes at a time, with padding. -/
def base64Go : List Nat → List Char
  | [] => []
  | [a] => [base64Char (a >>> 2), base64Char ((a &&& 3) <<< 4), '=', '=']
  | [a, b] =>
    [base64Char (a >>> 2), base64Char (((a &&& 3) <<< 4) ||| (b >>> 4)),
      base64Char ((b &&& 15) <<< 2), '=']
  | a :: b :: c :: rest =>
    base64Char (a >>> 2) :: base64Char (((a &&& 3) <<< 4) ||| (b >>> 4)) ::
      base64Char (((b &&& 15) <<< 2) ||| (c >>> 6)) :: base64Char (c &&& 63) ::
        base64Go rest

/-- Base64 encoding of a byte list as a string. -/
def base64Encode (bytes : List Nat) : String :=
  String.mk (base64Go bytes)

/-! ## Handshake accept value (`_generateAcceptValue`, lines 224-229) -/
/-- `_generateAcceptValue(key)`: base64 of SHA-1 of the key concatenated
with the RFC 6455 GUID. -/
def generateAcceptValue (key : String) : String :=
  base64Encode (sha1 (strBytes (key ++ "258EAFA5-E914-47DA-95CA-C5AB0DC85B11")))

/-! ## Handshake response handling (`_handleData` pre-open state,
`_isHandshakeResponse`, `_parseHeaders`, `_completeHandshake`) -/
/-- Whether a character list starts with a pattern. -/
def charsStartWith : List Char → List Char → Bool
  | [], _ => true
  | _ :: _, [] => false
  | p :: ps, c :: cs => p = c && charsStartWith ps cs

/-- Whether a character list contains a pattern as a contiguous run. -/
def charsContain (pat : List Char) : List Char → Bool
  | [] => pat.isEmpty
  | c :: rest => charsStartWith pat (c :: rest) || charsContain pat rest

/-- `_isHandshakeResponse(response)`:
`response.includes('101 Switching Protocols')`. -/
def isHandshakeResponse (response : String) : Bool :=
  charsContain "101 Switching Protocols".data response.data

/-- `_parseHeaders(response)`: splits on CRLF, splits each line on `": "`,
keeps pairs whose key and value are both non-empty (JavaScript truthiness),
lower-casing the key.  Accumulated in order; a later line overwrites an
earlier one in the source's object, which `headerLookup` reproduces by
taking the last match. -/
def parseHeaders (response : String) : List (String × String) :=
  (response.splitOn "\r\n").foldl
    (fun headers line =>
      match line.splitOn ": " with
      | k :: v :: _ => if k ≠ "" ∧ v ≠ "" then headers ++ [(k.toLower, v)] else headers
      | _ => headers)
    []

/-- Object-style lookup on parsed headers: the last assignment wins. -/
def headerLookup (headers : List (String × String)) (key : String) : Option String :=
  headers.reverse.lookup key

/-- The externally observable outcome of processing a handshake response:
whether the connection was opened (`connected = true`, `open` emitted, the
heartbeat started), whether the socket was destroyed, and whether an error
diagnostic was printed. -/
structure HandshakeOutcome where
  opened : Bool
  destroyed : Bool
  erroredConsole : Bool
deriving DecidableEq, Repr

/-- `_completeHandshake(response)`: compares the response's
`sec-websocket-accept` header against `_generateAcceptValue(this._key)`;
on equality marks the connection open and emits `open`, otherwise prints an
error and destroys the socket. -/
def completeHandshake (key response : String) : HandshakeOutcome :=
  let headers := parseHeaders response
  let acceptKey := headerLookup headers "sec-websocket-accept"
  let expectedAccept := generateAcceptValue key
  if acceptKey = some expectedAccept then ⟨true, false, false⟩ else ⟨false, true, true⟩

/-- `_handleData` in the pre-open state: a response containing
`101 Switching Protocols` goes to `_completeHandshake`; anything else prints
an error and destroys the socket. -/
def handshakeStep (key response : String) : HandshakeOutcome :=
  if isHandshakeResponse response then completeHandshake key response
  else ⟨false, true, true⟩

/-! ## JSON values and `JSON.parse` classification -/
/-- A JSON value (the result of `JSON.parse`). -/
inductive JsonVal where
  | null
  | bool (b : Bool)
  | num (n : Int)
  | str (s : String)
  | arr (elems : List JsonVal)
  | obj (fields : List (String × JsonVal))

/-- The opening-brace character. -/
def lbraceChar : Char := Char.ofNat 123

/-- The closing-brace character. -/
def rbraceChar : Char := Char.ofNat 125

/-- Result of a partial JSON parse: a value plus remaining input, input
exhausted where more was required, or definitively invalid input. -/
inductive PRes where
  | ok (v : JsonVal) (rest : List Char)
  | endOfInput
  | bad

/-- Result of parsing a JSON string body. -/
inductive StrRes where
  | ok (s : String) (rest : List Char)
  | endOfInput
  | bad

/-- Skips JSON whitespace. -/
def skipWs : List Char → List Char
  | [] => []
  | c :: rest =>
    if c = ' ' ∨ c = Char.ofNat 9 ∨ c = '\n' ∨ c = Char.ofNat 13 then skipWs rest
    else c :: rest

/-- Hexadecimal digit test. -/
def isHexDigitCh (c : Char) : Bool :=
  c.isDigit || ('a' ≤ c && c ≤ 'f') || ('A' ≤ c && c ≤ 'F')

/-- Hexadecimal digit value. -/
def hexValCh (c : Char) : Nat :=
  if c.isDigit then c.toNat - 48 else if 'a' ≤ c then c.toNat - 87 else c.toNat - 55

/-- Parses the body of a JSON string after the opening quote (fuel-based;
the input length suffices).  Runs to the closing quote, handling escapes;
end of input inside the string is `endOfInput`, an invalid escape or a raw
control character is `bad`. -/
def parseStringChars : Nat → List Char → List Char → StrRes
  | 0, _, _ => StrRes.bad
  | fuel + 1, input, acc =>
    match input with
    | [] => StrRes.endOfInput
    | c :: rest =>
      if c = '"' then StrRes.ok (String.mk acc.reverse) rest
      else if c = '\\' then
        match rest with
        | [] => StrRes.endOfInput
        | e :: rest1 =>
          if e = '"' then parseStringChars fuel rest1 ('"' :: acc)
          else if e = '\\' then parseStringChars fuel rest1 ('\\' :: acc)
          else if e = '/' then parseStringChars fuel rest1 ('/' :: acc)
          else if e = 'b' then parseStringChars fuel rest1 (Char.ofNat 8 :: acc)
          else if e = 'f' then parseStringChars fuel rest1 (Char.ofNat 12 :: acc)
          else if e = 'n' then parseStringChars fuel rest1 ('\n' :: acc)
          else if e = 'r' then parseStringChars fuel rest1 (Char.ofNat 13 :: acc)
          else if e = 't' then parseStringChars fuel rest1 (Char.ofNat 9 :: acc)
          else if e = 'u' then
            match rest1 with
            | h1 :: h2 :: h3 :: h4 :: rest2 =>
              if isHexDigitCh h1 && isHexDigitCh h2 && isHexDigitCh h3 && isHexDigitCh h4 then
                parseStringChars fuel rest2
                  (Char.ofNat (((hexValCh h1 * 16 + hexValCh h2) * 16 + hexValCh h3) * 16
                    + hexValCh h4) :: acc)
              else StrRes.bad
            | _ => StrRes.endOfInput
          else StrRes.bad
      else if c.toNat < 32 then StrRes.bad
      else parseStringChars fuel rest (c :: acc)

/-- Matches a literal keyword tail (`rue`, `alse`, `ull`). -/
def parseLit : List Char → List Char → JsonVal → PRes
  | [], rest, v => PRes.ok v rest
  | _ :: _, [], _ => PRes.endOfInput
  | p :: ps, c :: cs, v => if c = p then parseLit ps cs v else PRes.bad

/-- Numeric value of a digit list. -/
def digitsToNat (ds : List Char) : Nat :=
  ds.foldl (fun acc c => acc * 10 + (c.toNat - 48)) 0

/-- Parses an optional exponent suffix.  The stored numeric value keeps the
integer part only (the claims under verification never inspect numeric
values; only the parse/incomplete/malformed classification matters). -/
def parseNumTail (v : Int) (rest : List Char) : PRes :=
  match rest with
  | c :: r2 =>
    if c = 'e' ∨ c = 'E' then
      let r3 :=
        match r2 with
        | s :: r3' => if s = '+' ∨ s = '-' then r3' else r2
        | [] => r2
      let edigits := r3.takeWhile Char.isDigit
      if edigits.isEmpty then
        if r3.isEmpty then PRes.endOfInput else PRes.bad
      else PRes.ok (JsonVal.num v) (r3.drop edigits.length)
    else PRes.ok (JsonVal.num v) rest
  | [] => PRes.ok (JsonVal.num v) []

/-- Parses a JSON number (integer part, optional fraction and exponent). -/
def parseNumber (input : List Char) : PRes :=
  let signSplit :
      Bool × List Char :=
    match input with
    | c :: rest => if c = '-' then (true, rest) else (false, input)
    | [] => (false, input)
  let neg := signSplit.1
  let rest0 := signSplit.2
  match rest0 with
  | [] => PRes.endOfInput
  | _ =>
    let digits := rest0.takeWhile Char.isDigit
    if digits.isEmpty then PRes.bad
    else
      let rest1 := rest0.drop digits.length
      let intVal : Int :=
        if neg then -(digitsToNat digits : Int) else (digitsToNat digits : Int)
      match rest1 with
      | c :: r2 =>
        if c = '.' then
          let fdigits := r2.takeWhile Char.isDigit
          if fdigits.isEmpty then
            if r2.isEmpty then PRes.endOfInput else PRes.bad
          else parseNumTail intVal (r2.drop fdigits.length)
        else parseNumTail intVal rest1
      | [] => PRes.ok (JsonVal.num intVal) []

mutual

/-- Parses one JSON value (fuel-based; the nesting constructs consume at
most three units of fuel per consumed input character, so `3 * length + 3`
fuel suffices).  Exhausted input where a value was required is
`endOfInput`; an impossible first character is `bad`. -/
def parseJsonValue : Nat → List Char → PRes
  | 0, _ => PRes.bad
  | fuel + 1, input =>
    match skipWs input with
    | [] => PRes.endOfInput
    | c :: rest =>
      if c = lbraceChar then parseObjectBody fuel rest
      else if c = '[' then parseArrayBody fuel rest
      else if c = '"' then
        match parseStringChars (rest.length + 1) rest [] with
        | StrRes.ok s rest1 => PRes.ok (JsonVal.str s) rest1
        | StrRes.endOfInput => PRes.endOfInput
        | StrRes.bad => PRes.bad
      else if c = 't' then parseLit ['r', 'u', 'e'] rest (JsonVal.bool true)
      else if c = 'f' then parseLit ['a', 'l', 's', 'e'] rest (JsonVal.bool false)
      else if c = 'n' then parseLit ['u', 'l', 'l'] rest JsonVal.null
      else if c = '-' ∨ c.isDigit then parseNumber (c :: rest)
      else PRes.bad

/-- Parses an object body after the opening brace. -/
def parseObjectBody : Nat → List Char → PRes
  | 0, _ => PRes.bad
  | fuel + 1, input =>
    match skipWs input with
    | [] => PRes.endOfInput
    | c :: rest =>
      if c = rbraceChar then PRes.ok (JsonVal.obj []) rest
      else parseMembers fuel (c :: rest) []

/-- Parses the members of a non-empty object. -/
def parseMembers : Nat → List Char → List (String × JsonVal) → PRes
  | 0, _, _ => PRes.bad
  | fuel + 1, input, acc =>
    match skipWs input with
    | [] => PRes.endOfInput
    | c :: rest =>
      if c = '"' then
        match parseStringChars (rest.length + 1) rest [] with
        | StrRes.ok s rest1 =>
          match skipWs rest1 with
          | [] => PRes.endOfInput
          | c2 :: rest2 =>
            if c2 = ':' then
              match parseJsonValue fuel rest2 with
              | PRes.ok v rest3 =>
                match skipWs rest3 with
                | [] => PRes.endOfInput
                | c3 :: rest4 =>
                  if c3 = ',' then parseMembers fuel rest4 (acc ++ [(s, v)])
                  else if c3 = rbraceChar then PRes.ok (JsonVal.obj (acc ++ [(s, v)])) rest4
                  else PRes.bad
              | PRes.endOfInput => PRes.endOfInput
              | PRes.bad => PRes.bad
            else PRes.bad
        | StrRes.endOfInput => PRes.endOfInput
        | StrRes.bad => PRes.bad
      else PRes.bad

/-- Parses an array body after the opening bracket. -/
def parseArrayBody : Nat → List Char → PRes
  | 0, _ => PRes.bad
  | fuel + 1, input =>
    match skipWs input with
    | [] => PRes.endOfInput
    | c :: rest =>
      if c = ']' then PRes.ok (JsonVal.arr []) rest
      else parseElements fuel (c :: rest) []

/-- Parses the elements of a non-empty array. -/
def parseElements : Nat → List Char → List JsonVal → PRes
  | 0, _, _ => PRes.bad
  | fuel + 1, input, acc =>
    match parseJsonValue fuel input with
    | PRes.ok v rest =>
      match skipWs rest with
      | [] => PRes.endOfInput
      | c :: rest1 =>
        if c = ',' then parseElements fuel rest1 (acc ++ [v])
        else if c = ']' then PRes.ok (JsonVal.arr (acc ++ [v])) rest1
        else PRes.bad
    | PRes.endOfInput => PRes.endOfInput
    | PRes.bad => PRes.bad

end

/-- Classification of a complete `JSON.parse` call. -/
inductive JsonOutcome where
  | ok (v : JsonVal)
  | endOfInput
  | bad

/-- `JSON.parse(text)`, classified by how it returns: a value (`ok`), a
thrown error whose message includes `Unexpected end of JSON input` — the
input is a strict prefix of possibly valid JSON (`endOfInput`) — or any
other thrown error (`bad`), e.g. an unexpected token or trailing input.
The grammar is ECMA-404, as implemented by the engine behind the source's
`JSON.parse`. -/
def jsonParseClass (s : String) : JsonOutcome :=
  match parseJsonValue (3 * s.data.length + 3) s.data with
  | PRes.ok v rest =>
    if (skipWs rest).isEmpty then JsonOutcome.ok v else JsonOutcome.bad
  | PRes.endOfInput => JsonOutcome.endOfInput
  | PRes.bad => JsonOutcome.bad

/-! ## `CreamSocketParser.decode` (buffered variant, README lines 264-295) -/
/-- What `decode` returns: a parsed JSON value, or (binary format) the raw
accumulated bytes. -/
inductive DecodedData where
  | json (v : JsonVal)
  | bytes (b : List Nat)

/-- The parser's state: the configured format and the accumulation buffer. -/
structure ParserState where
  format : String
  buffer : List Nat

/-- Observable outcome of one `decode(data)` call: the returned value
(`null` is `none`), whether an error diagnostic was printed, and the
buffer's new contents. -/
structure DecodeResult where
  returned : Option DecodedData
  erroredConsole : Bool
  newBuffer : List Nat

/-- `CreamSocketParser.decode(data)`: appends the chunk to the buffer, then
(JSON format) UTF-8-decodes the whole buffer and runs `JSON.parse`.  On
success the buffer is cleared and the value returned; on an
`Unexpected end of JSON input` error it returns `null` keeping the buffer;
on any other error it prints a diagnostic, resets the buffer, and returns
`null`.  Binary format returns the accumulated buffer unchanged. -/
def parserDecode (st : ParserState) (data : List Nat) : DecodeResult :=
  let buf := st.buffer ++ data
  if st.format = "json" then
    match jsonParseClass (bufToString buf) with
    | JsonOutcome.ok v => ⟨some (DecodedData.json v), false, []⟩
    | JsonOutcome.endOfInput => ⟨none, false, buf⟩
    | JsonOutcome.bad => ⟨none, true, []⟩
  else if st.format = "binary" then ⟨some (DecodedData.bytes buf), false, buf⟩
  else ⟨none, false, buf⟩

/-! ## Notification handling (`CreamSocketParser.handleNotification`,
README lines 327-344) -/
/-- JavaScript truthiness of a JSON value (the `!notification.payload`
check): `null`, `false`, `0` and the empty string are falsy. -/
def jsTruthy : JsonVal → Bool
  | JsonVal.null => false
  | JsonVal.bool b => b
  | JsonVal.num n => n != 0
  | JsonVal.str s => !s.isEmpty
  | JsonVal.arr _ => true
  | JsonVal.obj _ => true

/-- A received notification envelope, as `handleNotification` sees it. -/
structure NotificationMsg where
  payload : JsonVal
  responseRequired : Bool

/-- Actions `handleNotification` performs, in order: writing the encoded
Ack envelope (`{type: 'ack', message: ...}`) to the socket, and returning
the notification payload to the caller (the dispatch). -/
inductive NotifAction where
  | writeAck (ackType ackMessage : String)
  | dispatch (payload : JsonVal)

/-- `handleNotification(notification, socket)`: a falsy payload aborts with
an error and no actions; otherwise, if `responseRequired` is truthy, the
Ack envelope is written to the socket first, and the payload is returned
(dispatched) last. -/
def handleNotification (n : NotificationMsg) : List NotifAction :=
  if !(jsTruthy n.payload) then []
  else
    (if n.responseRequired then
      [NotifAction.writeAck "ack" "Notification received successfully"]
    else []) ++ [NotifAction.dispatch n.payload]

/-- Number of Ack writes among the actions. -/
def countAcks (l : List NotifAction) : Nat :=
  (l.filter fun a =>
    match a with
    | NotifAction.writeAck _ _ => true
    | _ => false).length

/-- Number of dispatches among the actions. -/
def countDispatches (l : List NotifAction) : Nat :=
  (l.filter fun a =>
    match a with
    | NotifAction.dispatch _ => true
    | _ => false).length

/-! ## Heartbeat and disconnect (`disconnect`, `_sendCloseFrame`,
`startHeartbeat`, `stopHeartbeat`, and the socket `end` handler) -/
/-- The client state relevant to heartbeat liveness: the `connected` flag,
whether `heartbeatInterval` is set (an armed timer), and whether the socket
has been ended. -/
structure ClientState where
  connected : Bool
  heartbeatActive : Bool
  socketEnded : Bool
deriving DecidableEq, Repr

/-- Outbound/observable effects of the client operations. -/
inductive ClientOut where
  | closeFrameWritten
  | pingWritten
  | closeEmitted
deriving DecidableEq, Repr

/-- `disconnect()`: with a socket present it runs `_sendCloseFrame`, which
writes a Close frame and calls `socket.end()`.  Nothing else: the heartbeat
timer is not touched. -/
def disconnectClient (s : ClientState) : ClientState × List ClientOut :=
  ({ s with socketEnded := true }, [ClientOut.closeFrameWritten])

/-- The socket `end` handler: clears `connected`, emits `close`, and runs
`stopHeartbeat`, which clears the armed timer. -/
def handleEndEvent (s : ClientState) : ClientState × List ClientOut :=
  ({ s with connected := false, heartbeatActive := false }, [ClientOut.closeEmitted])

/-- One firing of the heartbeat interval: an armed timer sends a Ping. -/
def heartbeatTick (s : ClientState) : List ClientOut :=
  if s.heartbeatActive then [ClientOut.pingWritten] else []


/-! ## Byte-level bridging facts -/
lemma and255_eq_mod (a : Nat) : a &&& 255 = a % 256 := by
  have h := Nat.and_pow_two_sub_one_eq_mod a 8
  norm_num at h
  exact h

lemma and127_eq_mod (a : Nat) : a &&& 127 = a % 128 := by
  have h := Nat.and_pow_two_sub_one_eq_mod a 7
  norm_num at h
  exact h

lemma masked_bit_zero : ∀ a < 128, (a &&& 128) >>> 7 = 0 := by decide

lemma finBit_one : ∀ op < 16, (((128 ||| op) % 256) &&& 128) >>> 7 = 1 := by decide

lemma opBits_eq : ∀ op < 16, ((128 ||| op) % 256) &&& 15 = op := by decide

/-! ## Round-trip behaviour of the codec -/
/-- Frames with payloads shorter than 126 bytes decode back to the encoded
payload and opcode. -/
theorem decode_encode_small (p : List Nat) (op : Nat) (hop : op < 16)
    (hlen : p.length < 126) :
    decodeFrameBytes (encodeFrame p op) = some ⟨1, op, p⟩ := by
  have hmask : (p.length &&& 128) >>> 7 = 0 := masked_bit_zero _ (by omega)
  have hlen7f : p.length &&& 127 = p.length := by rw [and127_eq_mod]; omega
  have hfin := finBit_one op hop
  have hopb := opBits_eq op hop
  have hmod : p.length % 256 = p.length := Nat.mod_eq_of_lt (by omega)
  unfold encodeFrame decodeFrameBytes decodeMaskPart decodePayloadPart
  simp only [if_pos hlen, List.cons_append, List.nil_append, List.length_cons,
    List.getD_cons_zero, List.getD_cons_succ, hmod, hmask, hlen7f, hfin, hopb]
  rw [if_neg (by omega), if_neg (by omega : ¬ p.length = 126),
    if_neg (by omega : ¬ p.length = 127), if_neg (by omega : ¬ (0 : Nat) ≠ 0),
    if_neg (by omega)]
  simp [List.drop_succ_cons, List.take_length]

/-- Frames with payloads of 126 to 65535 bytes round-trip through the
16-bit extended length field. -/
theorem decode_encode_mid (p : List Nat) (op : Nat) (hop : op < 16)
    (h1 : 126 ≤ p.length) (h2 : p.length < 65536) :
    decodeFrameBytes (encodeFrame p op) = some ⟨1, op, p⟩ := by
  have hfin := finBit_one op hop
  have hopb := opBits_eq op hop
  have hhi : ((p.length >>> 8) &&& 255) % 256 = p.length / 256 := by
    rw [and255_eq_mod, Nat.shiftRight_eq_div_pow]; norm_num; omega
  have hlo : (p.length &&& 255) % 256 = p.length % 256 := by
    rw [and255_eq_mod]; omega
  have hb0 : (126 : Nat) % 256 = 126 := by norm_num
  have hb1 : (126 : Nat) &&& 127 = 126 := by decide
  have hb2 : ((126 : Nat) &&& 128) >>> 7 = 0 := by decide
  have hre : p.length / 256 * 256 + p.length % 256 = p.length := by omega
  unfold encodeFrame decodeFrameBytes decodeMaskPart decodePayloadPart readUInt16BE
  simp only [if_neg (by omega : ¬ p.length < 126), if_pos h2, List.cons_append,
    List.nil_append, List.length_cons, List.getD_cons_zero, List.getD_cons_succ,
    hb0, hb1, hb2, hhi, hlo, hfin, hopb, hre]
  rw [if_neg (by omega), if_pos trivial, if_neg (by omega),
    if_neg (by omega : ¬ (0 : Nat) ≠ 0), if_neg (by omega)]
  simp [List.take_length]

/-- For payloads of 65536 or more (and fewer than 2^32) bytes the encoder's
64-bit length field duplicates the low 32 bits of the length into the high
half (ECMAScript `>>` wraps its shift count modulo 32), so the decoder reads
a length of `length * (2^32 + 1)`, finds the buffer too short, and fails:
the round trip produces `none`. -/
theorem decode_encode_big_none (p : List Nat) (op : Nat)
    (h1 : 65536 ≤ p.length) (h2 : p.length < 4294967296) :
    decodeFrameBytes (encodeFrame p op) = none := by
  have hmod32 : p.length % 4294967296 = p.length := Nat.mod_eq_of_lt h2
  have hr8 : List.range 8 = [0, 1, 2, 3, 4, 5, 6, 7] := rfl
  have ebyte : ∀ s : Nat, ((p.length >>> s) &&& 255) % 256 = p.length / 2 ^ s % 256 := by
    intro s
    rw [and255_eq_mod, Nat.shiftRight_eq_div_pow]
    exact Nat.mod_mod_of_dvd _ dvd_rfl
  have hb0 : (127 : Nat) % 256 = 127 := by norm_num
  have hb1 : (127 : Nat) &&& 127 = 127 := by decide
  have hb2 : ((127 : Nat) &&& 128) >>> 7 = 0 := by decide
  unfold encodeFrame decodeFrameBytes decodeMaskPart decodePayloadPart readBigUInt64BE
  simp only [if_neg (by omega : ¬ p.length < 126), if_neg (by omega : ¬ p.length < 65536),
    hmod32, hr8, List.map_cons, List.map_nil, List.cons_append, List.nil_append,
    List.length_cons, List.getD_cons_zero, List.getD_cons_succ, hb0, hb1, hb2]
  norm_num [ebyte]
  simp only [and255_eq_mod]
  intro h
  exfalso
  omega

/-! ## Masking -/
/-- C6: XOR-masking each payload byte with `maskKey[i % 4]` and then
XOR-unmasking with the same key, exactly as the frame decoder's unmasking
loop does, reproduces the original payload. -/
theorem c6_mask_involution (payload maskingKey : List Nat) :
    unmaskBytes (unmaskBytes payload maskingKey) maskingKey = payload := by
  apply List.ext_getElem
  · simp [unmaskBytes]
  · intro n h1 h2
    simp only [unmaskBytes, List.length_map, List.length_range] at h1
    simp only [unmaskBytes, List.getElem_map, List.getElem_range]
    rw [List.getD_eq_getElem _ _ (by simpa [unmaskBytes] using h1)]
    simp only [List.getElem_map, List.getElem_range]
    rw [Nat.xor_cancel_right, List.getD_eq_getElem _ _ h2]

/-! ## Claim theorems for the frame codec -/
/-- C1: round-trip `decode(encode(payload, Text))`.  For every payload of
length at most 125 (first conjunct) and every payload of length 126 to 65535
(second conjunct) the decoded frame has fin 1, opcode Text and the original
payload bytes.  For every payload of length 65536 up to 2^32 - 1 — which
includes the claimed lengths 65536 and 70000 — the decode of the encode
returns `none` (third conjunct), refuting the claim for those lengths: the
encoder's 64-bit length field is corrupted by ECMAScript's modulo-32 shift
count. -/
theorem c1_roundtrip_by_length (b : Nat) (p : List Nat) :
    decodeFrameBytes (encodeFrame (p.take 125) 0x1) = some ⟨1, 0x1, p.take 125⟩ ∧
    decodeFrameBytes (encodeFrame (List.replicate 126 b ++ p.take 65409) 0x1)
      = some ⟨1, 0x1, List.replicate 126 b ++ p.take 65409⟩ ∧
    decodeFrameBytes (encodeFrame (List.replicate 65536 b ++ p.take 4294901759) 0x1) = none := by
  refine ⟨decode_encode_small _ _ (by norm_num) ?_,
    decode_encode_mid _ _ (by norm_num) ?_ ?_,
    decode_encode_big_none _ _ ?_ ?_⟩ <;>
    simp only [List.length_take, List.length_replicate, List.length_append] <;> omega

/-- At payload length 65536 the encoder emits the header
`[0x81, 127, 0, 1, 0, 0, 0, 1, 0, 0]`: the four low-order length bytes are
duplicated into the high half because ECMAScript reduces shift counts
modulo 32. -/
lemma encode_header_at_65536 (p : List Nat) (hl : p.length = 65536) :
    encodeFrame p 0x1 = 0x81 :: 127 :: 0 :: 1 :: 0 :: 0 :: 0 :: 1 :: 0 :: 0 :: p := by
  simp only [encodeFrame, hl, show List.range 8 = [0, 1, 2, 3, 4, 5, 6, 7] from rfl,
    List.map_cons, List.map_nil, List.cons_append, List.nil_append]
  norm_num
  decide

/-- At payload length 65536 the encoder described by the spec emits the
true 64-bit big-endian length `[0, 0, 0, 0, 0, 1, 0, 0]`. -/
lemma specEncode_header_at_65536 (p : List Nat) (hl : p.length = 65536) :
    specEncodeFrame p 0x1 = 0x81 :: 127 :: 0 :: 0 :: 0 :: 0 :: 0 :: 1 :: 0 :: 0 :: p := by
  simp only [specEncodeFrame, hl, show List.range 8 = [0, 1, 2, 3, 4, 5, 6, 7] from rfl,
    List.map_cons, List.map_nil, List.cons_append, List.nil_append]
  norm_num
  decide

/-- C5: the encoded frame's layout at the 64-bit tier.  At payload length
65536 the code emits length bytes `[0,1,0,0,0,1,0,0]` — the low 32 bits of
the length duplicated into the high half (ECMAScript `>>` wraps its shift
count modulo 32) — whereas the layout the specification describes (the exact
64-bit big-endian length, `specEncodeFrame`) would emit
`[0,0,0,0,0,1,0,0]`; the two encoders disagree. -/
theorem c5_length64_bytes :
    (encodeFrame (List.replicate 65536 0x61) 0x1).take 10
      = [0x81, 127, 0, 1, 0, 0, 0, 1, 0, 0] ∧
    (specEncodeFrame (List.replicate 65536 0x61) 0x1).take 10
      = [0x81, 127, 0, 0, 0, 0, 0, 1, 0, 0] ∧
    encodeFrame (List.replicate 65536 0x61) 0x1
      ≠ specEncodeFrame (List.replicate 65536 0x61) 0x1 := by
  have hlen : (List.replicate 65536 (0x61 : Nat)).length = 65536 :=
    List.length_replicate 65536 0x61
  have he := encode_header_at_65536 (List.replicate 65536 0x61) hlen
  have hs := specEncode_header_at_65536 (List.replicate 65536 0x61) hlen
  refine ⟨by rw [he]; rfl, by rw [hs]; rfl, ?_⟩
  intro h
  rw [he, hs] at h
  simp only [List.cons.injEq] at h
  obtain ⟨-, -, -, h4, -⟩ := h
  exact absurd h4 (by norm_num)

/-- C2 counterexample: the frame `[0x81, 0x01, 0x41]` (a one-byte Text frame)
delivered whole produces the `message "A"` event, but delivered as the two
chunks `[0x81]` and `[0x01, 0x41]` produces no events at all: the handler
decodes each chunk in isolation and the split changes the result. -/
theorem c2_chunking_counterexample :
    processChunks [[0x81, 0x01, 0x41]] = [WireEv.message "A"] ∧
    processChunks [[0x81], [0x01, 0x41]] = [] ∧
    processChunks [[0x81], [0x01, 0x41]] ≠ processChunks [[0x81, 0x01, 0x41]] := by
  refine ⟨rfl, rfl, by decide⟩

/-- C2 (amended): the inbound data handler keeps no reassembly buffer; it
decodes every chunk in isolation, and a chunk on which `_decodeFrame`
returns `null` contributes nothing — its bytes are dropped, and the
remaining chunks are processed exactly as if it had never arrived. -/
theorem c2_chunking_amended (chunk : List Nat) (rest : List (List Nat))
    (h : decodeFrame chunk = none) :
    processChunks (chunk :: rest) = processChunks rest := by
  simp [processChunks, handleDataEvents, h]

/-- Witness for `c2_chunking_amended` at the chunk `[0x81]`. -/
theorem c2_chunking_witness :
    decodeFrame [0x81] = none ∧
    processChunks [[0x81], [0x01, 0x41]] = processChunks [[0x01, 0x41]] :=
  ⟨rfl, c2_chunking_amended [0x81] [[0x01, 0x41]] rfl⟩

/-- C10: whenever a frame decodes, `_decodeFrame` returns its payload as the
UTF-8-decoded string of the payload bytes (never the raw bytes), for every
opcode; in particular the `message` (Text, 0x1) and `notification`
(Binary, 0x2) events both deliver that string. -/
theorem c10_string_delivery (buffer : List Nat) (raw : RawFrame)
    (h : decodeFrameBytes buffer = some raw) :
    decodeFrame buffer = some ⟨raw.fin, raw.opcode, bufToString raw.payload⟩ ∧
    (raw.opcode = 0x1 → handleDataEvents buffer = [WireEv.message (bufToString raw.payload)]) ∧
    (raw.opcode = 0x2 → handleDataEvents buffer = [WireEv.notification (bufToString raw.payload)]) := by
  have hdf : decodeFrame buffer = some ⟨raw.fin, raw.opcode, bufToString raw.payload⟩ := by
    simp [decodeFrame, h]
  refine ⟨hdf, ?_, ?_⟩ <;> intro hop <;> simp [handleDataEvents, hdf, hop]

/-- Witness for `c10_string_delivery` at a Binary frame with payload byte
0x41: the delivered payload is the string `"A"`, not the byte list. -/
theorem c10_string_delivery_witness :
    decodeFrameBytes [0x82, 0x01, 0x41] = some ⟨1, 2, [0x41]⟩ ∧
    decodeFrame [0x82, 0x01, 0x41] = some ⟨1, 2, "A"⟩ ∧
    handleDataEvents [0x82, 0x01, 0x41] = [WireEv.notification "A"] := by
  have h : decodeFrameBytes [0x82, 0x01, 0x41] = some ⟨1, 2, [0x41]⟩ := rfl
  have hall := c10_string_delivery [0x82, 0x01, 0x41] ⟨1, 2, [0x41]⟩ h
  exact ⟨h, hall.1, hall.2.2 rfl⟩

set_option maxRecDepth 8192 in
/-- C3: the expected handshake accept value is the base64 of SHA-1 of the
request key concatenated with the GUID `258EAFA5-E914-47DA-95CA-C5AB0DC85B11`;
for the fixed key `dGhlIHNhbXBsZSBub25jZQ==` it equals
`s3pPLMBiTxaQ9kYGzzhZRbK+xOo=`, the canonical RFC 6455 example. -/
theorem c3_accept_value :
    generateAcceptValue "dGhlIHNhbXBsZSBub25jZQ=="
      = "s3pPLMBiTxaQ9kYGzzhZRbK+xOo=" ∧
    generateAcceptValue "dGhlIHNhbXBsZSBub25jZQ=="
      = base64Encode (sha1 (strBytes
          ("dGhlIHNhbXBsZSBub25jZQ==" ++ "258EAFA5-E914-47DA-95CA-C5AB0DC85B11"))) := by
  constructor
  · decide
  · rfl

/-- C4: the handshake opens the connection iff the response contains
`101 Switching Protocols` and its `Sec-WebSocket-Accept` header equals the
expected accept value exactly (string comparison); every processing outcome
is either the success outcome or the failure outcome in which the socket is
destroyed and an error diagnostic is surfaced. -/
theorem c4_handshake_accept (key response : String) :
    ((handshakeStep key response).opened = true ↔
      isHandshakeResponse response = true ∧
        headerLookup (parseHeaders response) "sec-websocket-accept"
          = some (generateAcceptValue key)) ∧
    (handshakeStep key response = ⟨true, false, false⟩ ∨
      handshakeStep key response = ⟨false, true, true⟩) := by
  unfold handshakeStep completeHandshake
  by_cases h1 : isHandshakeResponse response
  · by_cases h2 : headerLookup (parseHeaders response) "sec-websocket-accept"
        = some (generateAcceptValue key)
    · simp [h1, h2]
    · simp [h1, h2]
  · simp [h1]

/-- C7: feeding the JSON-format payload decoder the truncated payload
`{"type":"mess` yields the incomplete outcome — `null` result, no error,
accumulation buffer retained with exactly those bytes — while feeding it the
definitively invalid bytes `{]` yields a reported error, a reset (empty)
buffer, and a `null` result. -/
theorem c7_incomplete_vs_malformed :
    parserDecode ⟨"json", []⟩ (strBytes "\x7b\"type\":\"mess")
      = ⟨none, false, strBytes "\x7b\"type\":\"mess"⟩ ∧
    parserDecode ⟨"json", []⟩ (strBytes "\x7b]") = ⟨none, true, []⟩ := by
  exact ⟨rfl, rfl⟩

/-- C8 counterexample: the notification envelope with the empty-string
payload and `responseRequired = true` produces zero Ack writes and zero
dispatches — not exactly one of each as claimed — because the source's
`!notification.payload` truthiness check rejects the falsy payload. -/
theorem c8_ack_counterexample :
    (NotificationMsg.mk (JsonVal.str "") true).responseRequired = true ∧
    handleNotification (NotificationMsg.mk (JsonVal.str "") true) = [] ∧
    countAcks (handleNotification (NotificationMsg.mk (JsonVal.str "") true)) = 0 ∧
    countDispatches (handleNotification (NotificationMsg.mk (JsonVal.str "") true)) = 0 :=
  ⟨rfl, rfl, rfl, rfl⟩

/-- C8 (amended): for a notification envelope whose payload is truthy and
whose `responseRequired` is true, the handler performs exactly the Ack write
followed by exactly the one dispatch — one Ack, one dispatch, the Ack
before control returns to the observer. -/
theorem c8_ack_amended (n : NotificationMsg) (h1 : jsTruthy n.payload = true)
    (h2 : n.responseRequired = true) :
    handleNotification n
      = [NotifAction.writeAck "ack" "Notification received successfully",
        NotifAction.dispatch n.payload] := by
  simp [handleNotification, h1, h2]

/-- Witness for `c8_ack_amended` at a notification with payload `"hi"`. -/
theorem c8_ack_witness :
    jsTruthy (JsonVal.str "hi") = true ∧
    (NotificationMsg.mk (JsonVal.str "hi") true).responseRequired = true ∧
    handleNotification (NotificationMsg.mk (JsonVal.str "hi") true)
      = [NotifAction.writeAck "ack" "Notification received successfully",
        NotifAction.dispatch (JsonVal.str "hi")] :=
  ⟨rfl, rfl, c8_ack_amended (NotificationMsg.mk (JsonVal.str "hi") true) rfl rfl⟩

/-- C9 counterexample: from the open state with an armed heartbeat,
`disconnect()` leaves the heartbeat timer armed, and a subsequent timer
firing still writes a Ping — refuting the claim that `disconnect()` stops
the heartbeat timer and that no Ping ever fires after it. -/
theorem c9_heartbeat_counterexample :
    (disconnectClient ⟨true, true, false⟩).1.heartbeatActive = true ∧
    heartbeatTick (disconnectClient ⟨true, true, false⟩).1 = [ClientOut.pingWritten] ∧
    (disconnectClient ⟨true, true, false⟩).2 = [ClientOut.closeFrameWritten] :=
  ⟨rfl, rfl, rfl⟩

/-- C9 (amended): `disconnect()` writes the Close frame and ends the socket
but leaves the heartbeat timer exactly as it was; the timer is cleared only
by the socket `end` handler (`stopHeartbeat`), after which a timer firing
writes nothing. -/
theorem c9_heartbeat_amended (s : ClientState) :
    (disconnectClient s).1.heartbeatActive = s.heartbeatActive ∧
    (disconnectClient s).2 = [ClientOut.closeFrameWritten] ∧
    (handleEndEvent s).1.heartbeatActive = false ∧
    heartbeatTick (handleEndEvent s).1 = [] := by
  refine ⟨rfl, rfl, rfl, ?_⟩
  simp [heartbeatTick, handleEndEvent]
